import Mathlib

/-!
Verification of the peer-connection quality analyzer of this repository.

The analyzer implementation file (src/utils/webrtc/analyzers/PeerConnectionAnalyzer.js)
is not present under src/; only its jest test suite
(src/src/utils/webrtc/analyzers/PeerConnectionAnalyzer.spec.js) is. The analysis
engine below is therefore modelled from the specification (spec.md, sections 3 to 6),
with the concrete scenario data translated from the test suite. Where the
specification describes boundary behavior twice (section 4.4 and section 8), the
reading consistent with section 8 and with the expected outcomes recorded in the
test suite is used: threshold comparisons are strict in the worse bucket, so a
value lying exactly on a boundary classifies into the higher-quality bucket.
-/

/-- Quality levels produced by the analyzer. Source name: CONNECTION_QUALITY
(imported by the test suite from the analyzer module). -/
inductive CONNECTION_QUALITY
  | UNKNOWN
  | GOOD
  | MEDIUM
  | BAD
  | VERY_BAD
  | NO_TRANSMITTED_DATA
  deriving DecidableEq

/-- Media kinds of the per-direction channels (aud stands for the audio kind,
vid for the video kind). -/
inductive MediaKind
  | aud
  | vid
  deriving DecidableEq

/-- Modelled from the spec: one extracted metrics row per tick per channel
(spec section 3, Sample). packetsRemote is optional because a stats snapshot
may legitimately omit the remote packet counter (spec section 4.1). -/
structure Sample where
  tMs : ℚ
  packetsLocal : ℚ
  packetsRemote : Option ℚ
  packetsLost : ℚ
  rtt : ℚ
  deriving DecidableEq

instance : Inhabited Sample :=
  ⟨⟨0, 0, none, 0, 0⟩⟩

/-- Modelled from the spec: the sample ring holds the baseline plus the last
N = 5 samples, so at most 6 rows; pushing into a full ring evicts the oldest
(spec sections 3 and 4.2). The list is ordered oldest first. -/
def pushSample (ring : List Sample) (s : Sample) : List Sample :=
  if ring.length < 6 then ring ++ [s] else ring.tail ++ [s]

/-- The oldest retained sample of the ring, used as the delta reference
(spec section 4.2, baseline). -/
def baselineS (ring : List Sample) : Sample :=
  ring.headD default

/-- The most recent sample of the ring (spec section 4.2, latest). -/
def latestS (ring : List Sample) : Sample :=
  ring.getLastD default

/-- The window deltas the classifier consumes (spec section 4.4). -/
structure WindowStats where
  dLocal : ℚ
  dRemote : ℚ
  dLost : ℚ
  dSeconds : ℚ
  rtt : ℚ
  deriving DecidableEq

/-- Local packet delta over the window baseline to latest (spec section 4.2). -/
def deltaLocal (ring : List Sample) : ℚ :=
  (latestS ring).packetsLocal - (baselineS ring).packetsLocal

/-- Lost packet delta over the window (spec section 4.2). -/
def deltaLost (ring : List Sample) : ℚ :=
  (latestS ring).packetsLost - (baselineS ring).packetsLost

/-- Modelled from the spec: remote packet delta over the window; when the remote
counter is unavailable it is reconstructed as the local delta minus the lost
delta rather than coerced to zero (spec sections 4.1 and 4.4). -/
def deltaRemote (ring : List Sample) : ℚ :=
  match (latestS ring).packetsRemote, (baselineS ring).packetsRemote with
  | some a, some b => a - b
  | some _, none => deltaLocal ring - deltaLost ring
  | none, _ => deltaLocal ring - deltaLost ring

/-- Seconds elapsed between baseline and latest (timestamps are milliseconds). -/
def deltaSeconds (ring : List Sample) : ℚ :=
  ((latestS ring).tMs - (baselineS ring).tMs) / 1000

/-- The window deltas of a ring, bundled. -/
def windowStats (ring : List Sample) : WindowStats :=
  ⟨deltaLocal ring, deltaRemote ring, deltaLost ring, deltaSeconds ring, (latestS ring).rtt⟩

/-- Throughput over the window, in packets per second (spec section 4.4). -/
def ppsW (w : WindowStats) : ℚ :=
  w.dLocal / w.dSeconds

/-- Window packet-loss measure: lost delta over max of local delta and one
(spec section 4.4). -/
def lossRateW (w : WindowStats) : ℚ :=
  w.dLost / max w.dLocal 1

/-- The NO_TRANSMITTED_DATA condition of classifier rule 1: the remote delta is
nonpositive while the local delta is positive, or the local delta is zero after
at least three consecutive stalled ticks (spec section 4.4, rule 1). -/
def ntdCaseW (w : WindowStats) (stallCount : Nat) : Prop :=
  (w.dRemote ≤ 0 ∧ 0 < w.dLocal) ∨ (w.dLocal = 0 ∧ 3 ≤ stallCount)

instance (w : WindowStats) (stallCount : Nat) : Decidable (ntdCaseW w stallCount) :=
  inferInstanceAs (Decidable ((w.dRemote ≤ 0 ∧ 0 < w.dLocal) ∨ (w.dLocal = 0 ∧ 3 ≤ stallCount)))

/-- Modelled from the spec: the classifier decision rules of section 4.4,
evaluated in order, first match wins. Boundary comparisons are strict in the
worse bucket (section 8, boundary behaviors), so a loss measure exactly at
3/100, 1/10 or 1/5, and a round-trip time exactly at 3/10, 1/2 or 1 second,
classify into the higher-quality bucket. -/
def classifyStats (w : WindowStats) (stallCount : Nat) : CONNECTION_QUALITY :=
  if ntdCaseW w stallCount then .NO_TRANSMITTED_DATA
  else if 1/5 < lossRateW w ∨ ppsW w < 10 ∨ 1 < w.rtt then .VERY_BAD
  else if 1/10 < lossRateW w ∨ 1/2 < w.rtt then .BAD
  else if 3/100 < lossRateW w ∨ 3/10 < w.rtt then .MEDIUM
  else .GOOD

/-- Throughput of a ring over its window. -/
def packetsPerSecond (ring : List Sample) : ℚ :=
  ppsW (windowStats ring)

/-- Window packet-loss measure of a ring. -/
def lossRate (ring : List Sample) : ℚ :=
  lossRateW (windowStats ring)

/-- The NO_TRANSMITTED_DATA condition of a ring. -/
def ntdCase (ring : List Sample) (stallCount : Nat) : Prop :=
  ntdCaseW (windowStats ring) stallCount

instance (ring : List Sample) (stallCount : Nat) : Decidable (ntdCase ring stallCount) :=
  inferInstanceAs (Decidable (ntdCaseW (windowStats ring) stallCount))

/-- The classifier applied to a ring (spec section 4.4). -/
def classifyRing (ring : List Sample) (stallCount : Nat) : CONNECTION_QUALITY :=
  classifyStats (windowStats ring) stallCount

/-- Modelled from the spec: the per-channel analyzer state (spec section 3,
ChannelState): the sample ring, the last emitted level, and the count of
consecutive stalled ticks. -/
structure ChannelState where
  ring : List Sample
  currentLevel : CONNECTION_QUALITY
  consecutiveStallCount : Nat
  deriving DecidableEq

/-- A freshly created or reset channel: empty ring, UNKNOWN level, no stalls. -/
def initialChannel : ChannelState :=
  ⟨[], .UNKNOWN, 0⟩

/-- The local packet counter of the most recent sample, if any. -/
def lastLocal (ring : List Sample) : Option ℚ :=
  ring.getLast?.map Sample.packetsLocal

/-- Record a level in the channel state and fire a quality-change event exactly
when the emitted value differs from the previously emitted value
(spec section 3, invariants, and section 2, change emitter). -/
def emitLevel (ring : List Sample) (cnt : Nat) (prev lvl : CONNECTION_QUALITY) :
    ChannelState × Option CONNECTION_QUALITY :=
  (⟨ring, lvl, cnt⟩, if lvl = prev then none else some lvl)

/-- Modelled from the spec: one driver tick for a single channel (spec sections
4.5 and 4.6). A tick with no usable sample leaves the channel unchanged. When
the local counter did not advance between the two most recent samples the
classification is suspended for this tick: the previously emitted level is
retained and the stall count is incremented, and when the stall count reaches 3
the channel emits NO_TRANSMITTED_DATA. Otherwise the stall count resets, the
sample ring advances, and the classifier runs once at least N + 1 = 6 samples
are held; before that the channel reports UNKNOWN. -/
def stepChannel (st : ChannelState) (s? : Option Sample) :
    ChannelState × Option CONNECTION_QUALITY :=
  match s? with
  | none => (st, none)
  | some s =>
    if lastLocal st.ring = some s.packetsLocal then
      if 3 ≤ st.consecutiveStallCount + 1 then
        emitLevel (pushSample st.ring s) (st.consecutiveStallCount + 1) st.currentLevel
          .NO_TRANSMITTED_DATA
      else
        (⟨pushSample st.ring s, st.currentLevel, st.consecutiveStallCount + 1⟩, none)
    else
      emitLevel (pushSample st.ring s) 0 st.currentLevel
        (if 6 ≤ (pushSample st.ring s).length then classifyRing (pushSample st.ring s) 0
         else .UNKNOWN)

/-- The outcome of running a channel over a sequence of ticks: the final state,
the quality-change events fired in order, and the level reported after each
tick. -/
structure ChannelRun where
  final : ChannelState
  events : List CONNECTION_QUALITY
  trace : List CONNECTION_QUALITY
  deriving DecidableEq

/-- Run a channel from a given state over a sequence of ticks. -/
def runChannelFrom (st : ChannelState) : List (Option Sample) → ChannelRun
  | [] => ⟨st, [], []⟩
  | s? :: rest =>
    let p := stepChannel st s?
    let r := runChannelFrom p.1 rest
    ⟨r.final, p.2.toList ++ r.events, p.1.currentLevel :: r.trace⟩

/-- Run a channel from the initial state. -/
def runChannel (ticks : List (Option Sample)) : ChannelRun :=
  runChannelFrom initialChannel ticks

/-- One driver tick of input for the two channels of the attached direction:
the extracted sample for the audio kind and for the video kind, either of
which may be absent (spec section 4.6). -/
structure TickInput where
  aud : Option Sample
  vid : Option Sample
  deriving DecidableEq

/-- Modelled from the spec: the driver runs both channels of the attached
direction on each tick, each channel fed its own extracted sample
(spec section 4.6). -/
def runAnalyzerFrom (a v : ChannelState) : List TickInput → ChannelRun × ChannelRun
  | [] => (⟨a, [], []⟩, ⟨v, [], []⟩)
  | t :: rest =>
    let pa := stepChannel a t.aud
    let pv := stepChannel v t.vid
    let r := runAnalyzerFrom pa.1 pv.1 rest
    (⟨r.1.final, pa.2.toList ++ r.1.events, pa.1.currentLevel :: r.1.trace⟩,
     ⟨r.2.final, pv.2.toList ++ r.2.events, pv.1.currentLevel :: r.2.trace⟩)

/-- Run both channels of the attached direction from the initial state. -/
def runAnalyzer (ticks : List TickInput) : ChannelRun × ChannelRun :=
  runAnalyzerFrom initialChannel initialChannel ticks

/-- The stat record types consumed by the engine (spec section 3, StatRecord). -/
inductive StatType
  | outboundRtp
  | inboundRtp
  | remoteInboundRtp
  | remoteOutboundRtp
  deriving DecidableEq

/-- One entry of a stats snapshot; every numeric field may be absent
(spec section 3, StatRecord). -/
structure StatRecord where
  rtype : StatType
  kind : MediaKind
  packetsSent : Option ℚ
  packetsReceived : Option ℚ
  packetsLost : Option ℚ
  roundTripTime : Option ℚ
  timestamp : Option ℚ
  deriving DecidableEq

/-- A usable outbound-rtp record for the given kind: it carries the local
packet counter and the timestamp (spec section 4.3). -/
def isOutboundFor (r : StatRecord) (k : MediaKind) : Prop :=
  r.rtype = .outboundRtp ∧ r.kind = k ∧ r.packetsSent.isSome = true ∧ r.timestamp.isSome = true

instance (r : StatRecord) (k : MediaKind) : Decidable (isOutboundFor r k) :=
  inferInstanceAs (Decidable (r.rtype = .outboundRtp ∧ r.kind = k ∧
    r.packetsSent.isSome = true ∧ r.timestamp.isSome = true))

/-- A usable remote-inbound-rtp record for the given kind: it carries the lost
packet counter and the round-trip time; the remote packet counter may be
absent (spec sections 4.1 and 4.3). -/
def isRemoteInboundFor (r : StatRecord) (k : MediaKind) : Prop :=
  r.rtype = .remoteInboundRtp ∧ r.kind = k ∧ r.packetsLost.isSome = true ∧
    r.roundTripTime.isSome = true

instance (r : StatRecord) (k : MediaKind) : Decidable (isRemoteInboundFor r k) :=
  inferInstanceAs (Decidable (r.rtype = .remoteInboundRtp ∧ r.kind = k ∧
    r.packetsLost.isSome = true ∧ r.roundTripTime.isSome = true))

/-- First usable outbound-rtp record of a snapshot for the given kind. -/
def findOutbound : List StatRecord → MediaKind → Option StatRecord
  | [], _ => none
  | r :: rs, k => if isOutboundFor r k then some r else findOutbound rs k

/-- First usable remote-inbound-rtp record of a snapshot for the given kind. -/
def findRemoteInbound : List StatRecord → MediaKind → Option StatRecord
  | [], _ => none
  | r :: rs, k => if isRemoteInboundFor r k then some r else findRemoteInbound rs k

/-- Modelled from the spec: the sender-direction metric extractor (spec section
4.3): the local counter and timestamp come from outbound-rtp, the lost counter,
round-trip time and the optional remote counter from remote-inbound-rtp. When a
required record or counter is missing the tick yields no sample. -/
def extractSender (stats : List StatRecord) (k : MediaKind) : Option Sample :=
  match findOutbound stats k, findRemoteInbound stats k with
  | some o, some ri =>
    some ⟨o.timestamp.getD 0, o.packetsSent.getD 0, ri.packetsReceived,
      ri.packetsLost.getD 0, ri.roundTripTime.getD 0⟩
  | some _, none => none
  | none, _ => none

/-- Remove the remote packet counter from a remote-inbound-rtp record, leaving
every other record and field untouched (spec section 8, Scenario H). -/
def dropPacketsReceived (r : StatRecord) : StatRecord :=
  if r.rtype = .remoteInboundRtp then
    ⟨r.rtype, r.kind, r.packetsSent, none, r.packetsLost, r.roundTripTime, r.timestamp⟩
  else r

/-- Remove the remote packet counter from an extracted sample. -/
def eraseRemote (s : Sample) : Sample :=
  ⟨s.tMs, s.packetsLocal, none, s.packetsLost, s.rtt⟩

/-- A sample whose remote counter is present and consistent: it equals the
local counter minus the lost counter. -/
def consistentS (s : Sample) : Prop :=
  s.packetsRemote = some (s.packetsLocal - s.packetsLost)

instance (s : Sample) : Decidable (consistentS s) :=
  inferInstanceAs (Decidable (s.packetsRemote = some (s.packetsLocal - s.packetsLost)))

/-- Every sample held in a ring is consistent. -/
def consistentRing (ring : List Sample) : Prop :=
  ∀ s ∈ ring, consistentS s

/-- An optional sample that is consistent when present. -/
def consistentOpt (s? : Option Sample) : Prop :=
  ∀ s ∈ s?.toList, consistentS s

instance (s? : Option Sample) : Decidable (consistentOpt s?) :=
  inferInstanceAs (Decidable (∀ s ∈ s?.toList, consistentS s))

/-- The sample extracted from a snapshot is consistent when present. -/
def consistentExtract (stats : List StatRecord) (k : MediaKind) : Prop :=
  consistentOpt (extractSender stats k)

instance (stats : List StatRecord) (k : MediaKind) : Decidable (consistentExtract stats k) :=
  inferInstanceAs (Decidable (consistentOpt (extractSender stats k)))

/-- A sample with a present remote counter, as fed by the test scenarios. -/
def mkSample (t p r l rttv : ℚ) : Sample :=
  ⟨t, p, some r, l, rttv⟩

/-- Scenario A, good quality: packetsSent 50,100,150,200,250,300 at timestamps
10000,11000,11950,13020,14010,14985, packetsReceived equal to packetsSent, zero
loss, round-trip time 1/10 (test suite, good quality test). -/
def scenarioA : List Sample :=
  [mkSample 10000 50 50 0 (1/10), mkSample 11000 100 100 0 (1/10),
   mkSample 11950 150 150 0 (1/10), mkSample 13020 200 200 0 (1/10),
   mkSample 14010 250 250 0 (1/10), mkSample 14985 300 300 0 (1/10)]

/-- Scenario B, medium quality: same schedule with packetsLost 0,5,5,15,20,25
and packetsReceived adjusted accordingly (test suite, medium quality test). -/
def scenarioB : List Sample :=
  [mkSample 10000 50 50 0 (1/10), mkSample 11000 100 95 5 (1/10),
   mkSample 11950 150 145 5 (1/10), mkSample 13020 200 185 15 (1/10),
   mkSample 14010 250 230 20 (1/10), mkSample 14985 300 275 25 (1/10)]

/-- Scenario C, bad quality: packetsLost 0,5,5,15,30,45 (test suite, bad
quality test). -/
def scenarioC : List Sample :=
  [mkSample 10000 50 50 0 (1/10), mkSample 11000 100 95 5 (1/10),
   mkSample 11950 150 145 5 (1/10), mkSample 13020 200 185 15 (1/10),
   mkSample 14010 250 220 30 (1/10), mkSample 14985 300 255 45 (1/10)]

/-- Scenario E, very bad quality via low throughput: packetsSent
5,10,15,20,25,30 with zero loss (test suite, very bad quality due to low
packets test). -/
def scenarioE : List Sample :=
  [mkSample 10000 5 5 0 (1/10), mkSample 11000 10 10 0 (1/10),
   mkSample 11950 15 15 0 (1/10), mkSample 13020 20 20 0 (1/10),
   mkSample 14010 25 25 0 (1/10), mkSample 14985 30 30 0 (1/10)]

/-- Scenario F, no transmitted data via full loss: packetsReceived stays at 50
while packetsLost grows 0,50,100,150,200,250 (test suite, no transmitted data
due to full packet loss test). -/
def scenarioF : List Sample :=
  [mkSample 10000 50 50 0 (1/10), mkSample 11000 100 50 50 (1/10),
   mkSample 11950 150 50 100 (1/10), mkSample 13020 200 50 150 (1/10),
   mkSample 14010 250 50 200 (1/10), mkSample 14985 300 50 250 (1/10)]

/-- The video records of the mixed test: full loss on the video channel while
the audio channel is good (test suite, good audio quality, very bad video
quality test). -/
def scenarioIVideo : List Sample :=
  [mkSample 10000 50 45 5 (1/10), mkSample 11000 100 90 10 (1/10),
   mkSample 11950 150 130 20 (1/10), mkSample 13020 200 160 40 (1/10),
   mkSample 14010 250 190 60 (1/10), mkSample 14985 300 225 75 (1/10)]

/-- The stall scenario of the test suite, no transmitted data for two seconds:
packetsSent 50,100,150,200,250,250,250 at timestamps
10000,11000,11950,13020,14010,14985,16010. -/
def scenarioStallTwo : List Sample :=
  [mkSample 10000 50 50 0 (1/10), mkSample 11000 100 100 0 (1/10),
   mkSample 11950 150 150 0 (1/10), mkSample 13020 200 200 0 (1/10),
   mkSample 14010 250 250 0 (1/10), mkSample 14985 250 250 0 (1/10),
   mkSample 16010 250 250 0 (1/10)]

/-- The stall scenario extended by a third consecutive stalled tick. -/
def scenarioStallThree : List Sample :=
  scenarioStallTwo ++ [mkSample 17010 250 250 0 (1/10)]

/-- Scenario G, first part: Scenario A followed by one tick in which the local
packet counter is unchanged (spec section 8, Scenario G). -/
def scenarioGOne : List Sample :=
  scenarioA ++ [mkSample 16010 300 300 0 (1/10)]

/-- Scenario G, full: Scenario A followed by three consecutive ticks in which
the local packet counter is unchanged (spec section 8, Scenario G). -/
def scenarioGThree : List Sample :=
  scenarioA ++ [mkSample 16010 300 300 0 (1/10), mkSample 17010 300 300 0 (1/10),
    mkSample 18010 300 300 0 (1/10)]

/-- A ring with positive local delta, throughput below 10 packets per second,
and a stalled remote counter: the local counter advances by 5 over 5 seconds
while the remote counter never moves and every transmitted packet is lost. -/
def ringLowPps : List Sample :=
  [⟨10000, 0, some 0, 0, 1/10⟩, ⟨11000, 1, some 0, 1, 1/10⟩,
   ⟨12000, 2, some 0, 2, 1/10⟩, ⟨13000, 3, some 0, 3, 1/10⟩,
   ⟨14000, 4, some 0, 4, 1/10⟩, ⟨15000, 5, some 0, 5, 1/10⟩]

/-- Feed a list of samples as one tick each. -/
def ticksOf (l : List Sample) : List (Option Sample) :=
  l.map some

/-- An outbound-rtp record as built by the test suite. -/
def outboundRec (k : MediaKind) (p t : ℚ) : StatRecord :=
  ⟨.outboundRtp, k, some p, none, none, none, some t⟩

/-- A remote-inbound-rtp record as built by the test suite. -/
def remoteInboundRec (k : MediaKind) (r l rttv t : ℚ) : StatRecord :=
  ⟨.remoteInboundRtp, k, none, some r, some l, some rttv, some t⟩

/-- The six stat reports of Scenario A for the audio kind, translated from the
test suite (good quality test, the mocked getStats return values). -/
def scenarioAReports : List (List StatRecord) :=
  [[outboundRec .aud 50 10000, remoteInboundRec .aud 50 0 (1/10) 10000],
   [outboundRec .aud 100 11000, remoteInboundRec .aud 100 0 (1/10) 11000],
   [outboundRec .aud 150 11950, remoteInboundRec .aud 150 0 (1/10) 11950],
   [outboundRec .aud 200 13020, remoteInboundRec .aud 200 0 (1/10) 13020],
   [outboundRec .aud 250 14010, remoteInboundRec .aud 250 0 (1/10) 14010],
   [outboundRec .aud 300 14985, remoteInboundRec .aud 300 0 (1/10) 14985]]

/-- The mixed-kind tick inputs of the independent-channels scenario: good audio
records and full-loss video records in every tick (test suite, good audio
quality, very bad video quality test). -/
def scenarioITicks : List TickInput :=
  (scenarioA.zip scenarioIVideo).map (fun p => ⟨some p.1, some p.2⟩)

/-- The Scenario A samples fed to the audio channel only, with no usable video
record in any tick (test suite, good quality test with audio kind). -/
def scenarioAAudTicks : List TickInput :=
  scenarioA.map (fun s => ⟨some s, none⟩)

/-- Rule 1 of the classifier: in the NO_TRANSMITTED_DATA case the classifier
returns NO_TRANSMITTED_DATA, whatever the remaining quantities are. -/
theorem classifyStats_ntd (w : WindowStats) (stallCount : Nat) (h : ntdCaseW w stallCount) :
    classifyStats w stallCount = .NO_TRANSMITTED_DATA := by
  unfold classifyStats
  rw [if_pos h]

/-- Rule 2 of the classifier: outside the NO_TRANSMITTED_DATA case, a window
throughput below 10 packets per second yields VERY_BAD. -/
theorem classifyStats_vb_of_pps (w : WindowStats) (stallCount : Nat) (hpps : ppsW w < 10)
    (hntd : ¬ ntdCaseW w stallCount) : classifyStats w stallCount = .VERY_BAD := by
  unfold classifyStats
  rw [if_neg hntd, if_pos (Or.inr (Or.inl hpps))]

/-- With a round-trip time at most 1/2, a throughput of at least 10 and outside
the NO_TRANSMITTED_DATA case, the classifier returns BAD exactly when the loss
measure lies strictly above 1/10 and at most 1/5. -/
theorem classifyStats_bad_iff (w : WindowStats) (stallCount : Nat) (hrtt : w.rtt ≤ 1/2)
    (hpps : 10 ≤ ppsW w) (hntd : ¬ ntdCaseW w stallCount) :
    classifyStats w stallCount = .BAD ↔ 1/10 < lossRateW w ∧ lossRateW w ≤ 1/5 := by
  unfold classifyStats
  rw [if_neg hntd]
  by_cases h2 : 1/5 < lossRateW w ∨ ppsW w < 10 ∨ 1 < w.rtt
  · rw [if_pos h2]
    constructor
    · intro h
      exact absurd h (by decide)
    · rintro ⟨ha, hb⟩
      rcases h2 with h2 | h2 | h2
      · linarith
      · linarith
      · linarith
  · rw [if_neg h2]
    push_neg at h2
    obtain ⟨h5, hp, hr⟩ := h2
    by_cases h3 : 1/10 < lossRateW w ∨ 1/2 < w.rtt
    · rw [if_pos h3]
      constructor
      · intro _
        rcases h3 with h3 | h3
        · exact ⟨h3, h5⟩
        · linarith
      · intro _
        rfl
    · rw [if_neg h3]
      push_neg at h3
      constructor
      · intro h
        by_cases h4 : 3/100 < lossRateW w ∨ 3/10 < w.rtt
        · rw [if_pos h4] at h
          exact absurd h (by decide)
        · rw [if_neg h4] at h
          exact absurd h (by decide)
      · rintro ⟨ha, _⟩
        exact absurd ha (not_lt.mpr h3.1)

/-- With a round-trip time at most 3/10, a throughput of at least 10 and
outside the NO_TRANSMITTED_DATA case, a loss measure lying exactly on a
boundary (3/100, 1/10 or 1/5) classifies into the higher-quality bucket. -/
theorem classifyStats_boundary (w : WindowStats) (stallCount : Nat) (hrtt : w.rtt ≤ 3/10)
    (hpps : 10 ≤ ppsW w) (hntd : ¬ ntdCaseW w stallCount) :
    (lossRateW w = 3/100 → classifyStats w stallCount = .GOOD) ∧
    (lossRateW w = 1/10 → classifyStats w stallCount = .MEDIUM) ∧
    (lossRateW w = 1/5 → classifyStats w stallCount = .BAD) := by
  unfold classifyStats
  rw [if_neg hntd]
  refine ⟨fun h => ?_, fun h => ?_, fun h => ?_⟩
  · rw [h]
    rw [if_neg (by push_neg; exact ⟨by norm_num, hpps, by linarith⟩)]
    rw [if_neg (by push_neg; exact ⟨by norm_num, by linarith⟩)]
    rw [if_neg (by push_neg; exact ⟨by norm_num, by linarith⟩)]
  · rw [h]
    rw [if_neg (by push_neg; exact ⟨by norm_num, hpps, by linarith⟩)]
    rw [if_neg (by push_neg; exact ⟨by norm_num, by linarith⟩)]
    rw [if_pos (Or.inl (by norm_num))]
  · rw [h]
    rw [if_neg (by push_neg; exact ⟨by norm_num, hpps, by linarith⟩)]
    rw [if_pos (Or.inl (by norm_num))]

unseal Rat.mul Rat.inv Rat.add Rat.sub in
/-- C1: for a sender channel (audio or video alike, the channels run the same
machine) fed the Scenario A stats (packetsSent 50,100,150,200,250,300 at
timestamps 10000,11000,11950,13020,14010,14985, zero loss, rtt 1/10,
packetsReceived equal to packetsSent), after the first 5 samples the reported
level is UNKNOWN and no quality-change event has fired, and after the 6th
sample the reported level is GOOD with exactly one quality-change event
carrying GOOD. -/
theorem c1_scenarioA_unknown_then_good :
    (runChannel ((ticksOf scenarioA).take 5)).final.currentLevel = .UNKNOWN ∧
    (runChannel ((ticksOf scenarioA).take 5)).events = [] ∧
    (runChannel (ticksOf scenarioA)).trace =
      [.UNKNOWN, .UNKNOWN, .UNKNOWN, .UNKNOWN, .UNKNOWN, .GOOD] ∧
    (runChannel (ticksOf scenarioA)).events = [.GOOD] := by
  decide

unseal Rat.mul Rat.inv Rat.add Rat.sub in
/-- C2, counterexample: the final Scenario B ring has a window loss measure of
exactly 1/10, round-trip time 1/10, throughput at least 10, and is not in the
NO_TRANSMITTED_DATA case, yet the classifier returns MEDIUM rather than BAD.
This refutes the claim that a ratio of exactly 1/10 classifies as BAD. -/
theorem c2_boundary_counterexample :
    lossRate scenarioB = 1/10 ∧ (latestS scenarioB).rtt ≤ 1/2 ∧
    10 ≤ packetsPerSecond scenarioB ∧ ¬ ntdCase scenarioB 0 ∧
    scenarioB.length = 6 ∧ classifyRing scenarioB 0 ≠ .BAD ∧
    classifyRing scenarioB 0 = .MEDIUM := by
  decide

/-- C2, amended: for every ring of N + 1 samples whose latest round-trip time
is at most 1/2 second, whose throughput is at least 10 packets per second, and
which is not in the NO_TRANSMITTED_DATA case, the classifier returns BAD
exactly when the window packet-loss measure lies strictly above 1/10 and at
most 1/5 (a measure of exactly 1/10 classifies as MEDIUM, one of exactly 1/5
as BAD). -/
theorem c2_bad_iff_loss_between :
    ∀ (ring : List Sample) (stallCount : Nat), ring.length = 6 →
      (latestS ring).rtt ≤ 1/2 → 10 ≤ packetsPerSecond ring → ¬ ntdCase ring stallCount →
      (classifyRing ring stallCount = .BAD ↔
        1/10 < lossRate ring ∧ lossRate ring ≤ 1/5) := by
  intro ring stallCount _ hrtt hpps hntd
  exact classifyStats_bad_iff (windowStats ring) stallCount hrtt hpps hntd

unseal Rat.mul Rat.inv Rat.add Rat.sub in
/-- Witness for the amended C2 at the Scenario C ring, whose loss measure is
9/50. -/
theorem c2_bad_iff_loss_between_witness :
    (scenarioC.length = 6 ∧ (latestS scenarioC).rtt ≤ 1/2 ∧
      10 ≤ packetsPerSecond scenarioC ∧ ¬ ntdCase scenarioC 0) ∧
    classifyRing scenarioC 0 = .BAD :=
  ⟨by decide,
    (c2_bad_iff_loss_between scenarioC 0 (by decide) (by decide) (by decide) (by decide)).mpr
      (by decide)⟩

unseal Rat.mul Rat.inv Rat.add Rat.sub in
/-- C3: in Scenario B (packetsSent 50,100,150,200,250,300 with packetsLost
0,5,5,15,20,25, window loss measure exactly 25/250 = 1/10) the level reported
after tick 5 is MEDIUM; and in general, for a ring whose round-trip time is at
most 3/10, whose throughput is at least 10 and which is not in the
NO_TRANSMITTED_DATA case, a loss measure lying exactly on a boundary (3/100,
1/10, 1/5) classifies into the higher-quality bucket. -/
theorem c3_boundary_higher_quality :
    ((runChannel (ticksOf scenarioB)).trace =
        [.UNKNOWN, .UNKNOWN, .UNKNOWN, .UNKNOWN, .UNKNOWN, .MEDIUM] ∧
      lossRate scenarioB = 1/10) ∧
    (∀ (ring : List Sample) (stallCount : Nat), ring.length = 6 →
      (latestS ring).rtt ≤ 3/10 → 10 ≤ packetsPerSecond ring → ¬ ntdCase ring stallCount →
      (lossRate ring = 3/100 → classifyRing ring stallCount = .GOOD) ∧
      (lossRate ring = 1/10 → classifyRing ring stallCount = .MEDIUM) ∧
      (lossRate ring = 1/5 → classifyRing ring stallCount = .BAD)) := by
  refine ⟨by decide, ?_⟩
  intro ring stallCount _ hrtt hpps hntd
  exact classifyStats_boundary (windowStats ring) stallCount hrtt hpps hntd

unseal Rat.mul Rat.inv Rat.add Rat.sub in
/-- Witness for C3 at the Scenario B ring: its loss measure is exactly 1/10
and the classifier returns MEDIUM. -/
theorem c3_boundary_higher_quality_witness :
    (scenarioB.length = 6 ∧ (latestS scenarioB).rtt ≤ 3/10 ∧
      10 ≤ packetsPerSecond scenarioB ∧ ¬ ntdCase scenarioB 0 ∧
      lossRate scenarioB = 1/10) ∧
    classifyRing scenarioB 0 = .MEDIUM :=
  ⟨by decide,
    (c3_boundary_higher_quality.2 scenarioB 0 (by decide) (by decide) (by decide)
      (by decide)).2.1 (by decide)⟩

unseal Rat.mul Rat.inv Rat.add Rat.sub in
/-- C4: for every ring of N + 1 samples whose remote packet delta over the
window is at most 0 while the local packet delta is positive, the classifier
returns NO_TRANSMITTED_DATA; and in Scenario F (packetsSent 50..300,
packetsReceived constant at 50, packetsLost 0,50,100,150,200,250) the level
after tick 5 is NO_TRANSMITTED_DATA, with exactly one change event. -/
theorem c4_full_loss_ntd :
    (∀ (ring : List Sample) (stallCount : Nat), ring.length = 6 →
      deltaRemote ring ≤ 0 → 0 < deltaLocal ring →
      classifyRing ring stallCount = .NO_TRANSMITTED_DATA) ∧
    (runChannel (ticksOf scenarioF)).trace =
      [.UNKNOWN, .UNKNOWN, .UNKNOWN, .UNKNOWN, .UNKNOWN, .NO_TRANSMITTED_DATA] ∧
    (runChannel (ticksOf scenarioF)).events = [.NO_TRANSMITTED_DATA] := by
  refine ⟨?_, by decide, by decide⟩
  intro ring stallCount _ h1 h2
  exact classifyStats_ntd (windowStats ring) stallCount (Or.inl ⟨h1, h2⟩)

unseal Rat.mul Rat.inv Rat.add Rat.sub in
/-- Witness for C4 at the Scenario F ring. -/
theorem c4_full_loss_ntd_witness :
    (scenarioF.length = 6 ∧ deltaRemote scenarioF ≤ 0 ∧ 0 < deltaLocal scenarioF) ∧
    classifyRing scenarioF 0 = .NO_TRANSMITTED_DATA :=
  ⟨by decide, c4_full_loss_ntd.1 scenarioF 0 (by decide) (by decide) (by decide)⟩

unseal Rat.mul Rat.inv Rat.add Rat.sub in
/-- C5, counterexample: a ring with throughput below 10 packets per second
(the local counter advances by 5 over 5 seconds) on which the classifier does
not return VERY_BAD: the remote delta is nonpositive while the local delta is
positive, so rule 1 returns NO_TRANSMITTED_DATA first. This refutes the claim
that every ring with throughput below 10 classifies as VERY_BAD. -/
theorem c5_low_pps_counterexample :
    ringLowPps.length = 6 ∧ packetsPerSecond ringLowPps < 10 ∧
    classifyRing ringLowPps 0 = .NO_TRANSMITTED_DATA ∧
    classifyRing ringLowPps 0 ≠ .VERY_BAD := by
  decide

unseal Rat.mul Rat.inv Rat.add Rat.sub in
/-- C5, amended: for every ring of N + 1 samples whose window throughput is
below 10 packets per second and which is not in the NO_TRANSMITTED_DATA case,
the classifier returns VERY_BAD even when no packets were lost and the
round-trip time is low; in Scenario E (packetsSent 5,10,15,20,25,30, zero
loss, rtt 1/10) the level after tick 5 is VERY_BAD. -/
theorem c5_low_pps_very_bad :
    (∀ (ring : List Sample) (stallCount : Nat), ring.length = 6 →
      packetsPerSecond ring < 10 → ¬ ntdCase ring stallCount →
      classifyRing ring stallCount = .VERY_BAD) ∧
    (runChannel (ticksOf scenarioE)).trace =
      [.UNKNOWN, .UNKNOWN, .UNKNOWN, .UNKNOWN, .UNKNOWN, .VERY_BAD] ∧
    (runChannel (ticksOf scenarioE)).events = [.VERY_BAD] := by
  refine ⟨?_, by decide, by decide⟩
  intro ring stallCount _ hpps hntd
  exact classifyStats_vb_of_pps (windowStats ring) stallCount hpps hntd

unseal Rat.mul Rat.inv Rat.add Rat.sub in
/-- Witness for the amended C5 at the Scenario E ring, whose throughput is
5000/997, below 10. -/
theorem c5_low_pps_very_bad_witness :
    (scenarioE.length = 6 ∧ packetsPerSecond scenarioE < 10 ∧ ¬ ntdCase scenarioE 0) ∧
    classifyRing scenarioE 0 = .VERY_BAD :=
  ⟨by decide, c5_low_pps_very_bad.1 scenarioE 0 (by decide) (by decide) (by decide)⟩

unseal Rat.mul Rat.inv Rat.add Rat.sub in
/-- C7: after the initial GOOD classification of Scenario A, one tick in which
packetsSent is unchanged leaves the reported level GOOD with no further event,
and after the third consecutive unchanged tick (the stall count reaching 3)
the reported level is NO_TRANSMITTED_DATA. -/
theorem c7_stall_tolerance_then_dead :
    (runChannel (ticksOf scenarioGOne)).final.currentLevel = .GOOD ∧
    (runChannel (ticksOf scenarioGOne)).events = [.GOOD] ∧
    (runChannel (ticksOf scenarioGThree)).trace =
      [.UNKNOWN, .UNKNOWN, .UNKNOWN, .UNKNOWN, .UNKNOWN, .GOOD, .GOOD, .GOOD,
        .NO_TRANSMITTED_DATA] ∧
    (runChannel (ticksOf scenarioGThree)).events = [.GOOD, .NO_TRANSMITTED_DATA] ∧
    (runChannel (ticksOf scenarioGThree)).final.consecutiveStallCount = 3 := by
  decide

unseal Rat.mul Rat.inv Rat.add Rat.sub in
/-- C10, counterexample: on the input with packetsSent 50,100,150,200,250,250,
250 at the tested timestamps, the level reported after the second stalled tick
is the retained previous level UNKNOWN, not VERY_BAD. -/
theorem c10_second_stall_counterexample :
    (runChannel (ticksOf scenarioStallTwo)).final.currentLevel = .UNKNOWN ∧
    (runChannel (ticksOf scenarioStallTwo)).final.currentLevel ≠ .VERY_BAD := by
  decide

unseal Rat.mul Rat.inv Rat.add Rat.sub in
/-- C10, amended: on the input with packetsSent 50,100,150,200,250,250,250 at
the tested timestamps, the reported level after the second consecutive stalled
tick is the previously emitted level (UNKNOWN here, with no quality-change
event), and NO_TRANSMITTED_DATA is reported only after a third consecutive
stalled tick. -/
theorem c10_second_stall_retains_level :
    (runChannel (ticksOf scenarioStallTwo)).trace =
      [.UNKNOWN, .UNKNOWN, .UNKNOWN, .UNKNOWN, .UNKNOWN, .UNKNOWN, .UNKNOWN] ∧
    (runChannel (ticksOf scenarioStallTwo)).events = [] ∧
    (runChannel (ticksOf scenarioStallTwo)).final.consecutiveStallCount = 2 ∧
    (runChannel (ticksOf scenarioStallThree)).final.currentLevel = .NO_TRANSMITTED_DATA ∧
    (runChannel (ticksOf scenarioStallThree)).events = [.NO_TRANSMITTED_DATA] := by
  decide

/-- C8: a tick in which the local packet counter does not advance between the
two most recent samples, arriving with no stall in progress, changes nothing
observable: the previously emitted level is retained, no quality-change event
fires, and the stall count becomes 1; and a following tick with a positive
delta resets the stall count to 0 and resumes normal classification (the level
becomes the classifier output once N + 1 samples are held, UNKNOWN before). -/
theorem c8_single_stall_retains_then_reset :
    (∀ (st : ChannelState) (s : Sample), lastLocal st.ring = some s.packetsLocal →
      st.consecutiveStallCount = 0 →
      (stepChannel st (some s)).1.currentLevel = st.currentLevel ∧
      (stepChannel st (some s)).2 = none ∧
      (stepChannel st (some s)).1.consecutiveStallCount = 1) ∧
    (∀ (st : ChannelState) (s : Sample) (v : ℚ), lastLocal st.ring = some v →
      v < s.packetsLocal →
      (stepChannel st (some s)).1.consecutiveStallCount = 0 ∧
      (stepChannel st (some s)).1.currentLevel =
        (if 6 ≤ (pushSample st.ring s).length then classifyRing (pushSample st.ring s) 0
         else .UNKNOWN)) := by
  constructor
  · intro st s h h0
    simp only [stepChannel]
    rw [if_pos h, h0]
    rw [if_neg (by norm_num)]
    exact ⟨rfl, rfl, rfl⟩
  · intro st s v hv hlt
    have hne : lastLocal st.ring ≠ some s.packetsLocal := by
      rw [hv]
      intro hc
      have h2 := Option.some.inj hc
      rw [h2] at hlt
      exact lt_irrefl _ hlt
    simp only [stepChannel]
    rw [if_neg hne]
    exact ⟨rfl, rfl⟩

unseal Rat.mul Rat.inv Rat.add Rat.sub in
/-- Witness for C8: at the channel state reached after Scenario A, an unchanged
local counter of 300 fires no event, and a later sample with counter 350 resets
the stall count. -/
theorem c8_single_stall_retains_then_reset_witness :
    (lastLocal (runChannel (ticksOf scenarioA)).final.ring =
        some (mkSample 16010 300 300 0 (1/10)).packetsLocal ∧
      (runChannel (ticksOf scenarioA)).final.consecutiveStallCount = 0 ∧
      (stepChannel (runChannel (ticksOf scenarioA)).final
        (some (mkSample 16010 300 300 0 (1/10)))).2 = none) ∧
    (stepChannel (runChannel (ticksOf scenarioA)).final
      (some (mkSample 16010 350 350 0 (1/10)))).1.consecutiveStallCount = 0 :=
  ⟨⟨by decide, by decide,
    (c8_single_stall_retains_then_reset.1 (runChannel (ticksOf scenarioA)).final
      (mkSample 16010 300 300 0 (1/10)) (by decide) (by decide)).2.1⟩,
   (c8_single_stall_retains_then_reset.2 (runChannel (ticksOf scenarioA)).final
      (mkSample 16010 350 350 0 (1/10)) 300 (by decide) (by decide)).1⟩

/-- The driver decomposes per channel: running the two channels over a tick
sequence equals running each channel over its own projected sample sequence. -/
theorem runAnalyzerFrom_eq_pair (ticks : List TickInput) :
    ∀ (a v : ChannelState), runAnalyzerFrom a v ticks =
      (runChannelFrom a (ticks.map TickInput.aud),
       runChannelFrom v (ticks.map TickInput.vid)) := by
  induction ticks with
  | nil =>
    intro a v
    rfl
  | cons t rest ih =>
    intro a v
    simp only [runAnalyzerFrom, List.map_cons, runChannelFrom, ih]

/-- A channel fed no usable sample on any tick keeps its state and fires no
event: it reports its current level on every tick. -/
theorem runChannelFrom_all_none (ticks : List (Option Sample)) :
    ∀ st : ChannelState, (∀ s? ∈ ticks, s? = none) →
      runChannelFrom st ticks = ⟨st, [], List.replicate ticks.length st.currentLevel⟩ := by
  induction ticks with
  | nil =>
    intro st _
    rfl
  | cons s? rest ih =>
    intro st h
    have h0 : s? = none := h s? (List.mem_cons_self s? rest)
    subst h0
    have h2 := ih st (fun x hx => h x (List.mem_cons_of_mem _ hx))
    simp only [runChannelFrom, stepChannel, h2, List.length_cons, List.replicate_succ,
      Option.toList_none, List.nil_append]

unseal Rat.mul Rat.inv Rat.add Rat.sub in
/-- C9: the channels are independent. For every input sequence with no usable
video record, the video channel fires no event and reports UNKNOWN on every
tick while the audio channel behaves exactly as if run alone, and symmetrically
with the kinds exchanged; and in the mixed scenario feeding good audio records
and full-loss video records, after tick 5 audio is GOOD and video is VERY_BAD,
each channel firing exactly its own change event. -/
theorem c9_channels_independent :
    (∀ ticks : List TickInput, (∀ t ∈ ticks, t.vid = none) →
      (runAnalyzer ticks).2.events = [] ∧
      (runAnalyzer ticks).2.trace = List.replicate ticks.length .UNKNOWN ∧
      (runAnalyzer ticks).1 = runChannel (ticks.map TickInput.aud)) ∧
    (∀ ticks : List TickInput, (∀ t ∈ ticks, t.aud = none) →
      (runAnalyzer ticks).1.events = [] ∧
      (runAnalyzer ticks).1.trace = List.replicate ticks.length .UNKNOWN ∧
      (runAnalyzer ticks).2 = runChannel (ticks.map TickInput.vid)) ∧
    ((runAnalyzer scenarioITicks).1.trace =
        [.UNKNOWN, .UNKNOWN, .UNKNOWN, .UNKNOWN, .UNKNOWN, .GOOD] ∧
      (runAnalyzer scenarioITicks).1.events = [.GOOD] ∧
      (runAnalyzer scenarioITicks).2.trace =
        [.UNKNOWN, .UNKNOWN, .UNKNOWN, .UNKNOWN, .UNKNOWN, .VERY_BAD] ∧
      (runAnalyzer scenarioITicks).2.events = [.VERY_BAD]) := by
  refine ⟨?_, ?_, by decide⟩
  · intro ticks h
    have hnone : ∀ s? ∈ ticks.map TickInput.vid, s? = none := by
      intro s? hs
      obtain ⟨t, ht, rfl⟩ := List.mem_map.mp hs
      exact h t ht
    unfold runAnalyzer runChannel
    rw [runAnalyzerFrom_eq_pair]
    rw [runChannelFrom_all_none _ _ hnone]
    exact ⟨rfl, by simp [initialChannel], rfl⟩
  · intro ticks h
    have hnone : ∀ s? ∈ ticks.map TickInput.aud, s? = none := by
      intro s? hs
      obtain ⟨t, ht, rfl⟩ := List.mem_map.mp hs
      exact h t ht
    unfold runAnalyzer runChannel
    rw [runAnalyzerFrom_eq_pair]
    rw [runChannelFrom_all_none _ _ hnone]
    exact ⟨rfl, by simp [initialChannel], rfl⟩

unseal Rat.mul Rat.inv Rat.add Rat.sub in
/-- Witness for C9 at the audio-only Scenario A feed. -/
theorem c9_channels_independent_witness :
    (∀ t ∈ scenarioAAudTicks, t.vid = none) ∧
    (runAnalyzer scenarioAAudTicks).2.events = [] ∧
    (runAnalyzer scenarioAAudTicks).2.trace =
      List.replicate scenarioAAudTicks.length .UNKNOWN :=
  ⟨by decide, (c9_channels_independent.1 scenarioAAudTicks (by decide)).1,
    (c9_channels_independent.1 scenarioAAudTicks (by decide)).2.1⟩

/-- Erasing the remote counter changes no other field: the local counter. -/
theorem eraseRemote_packetsLocal (s : Sample) :
    (eraseRemote s).packetsLocal = s.packetsLocal := rfl

/-- Erasing the remote counter leaves it absent. -/
theorem eraseRemote_packetsRemote (s : Sample) :
    (eraseRemote s).packetsRemote = none := rfl

/-- Erasing the remote counter of the default sample changes nothing. -/
theorem eraseRemote_default : eraseRemote default = default := rfl

/-- getLastD commutes with erasing the remote counter. -/
theorem getLastD_map_eraseRemote (l : List Sample) :
    ∀ d : Sample, (l.map eraseRemote).getLastD (eraseRemote d) = eraseRemote (l.getLastD d) := by
  induction l with
  | nil =>
    intro d
    rfl
  | cons a t ih =>
    intro d
    simp only [List.map_cons, List.getLastD_cons]
    exact ih a

/-- The latest sample commutes with erasing the remote counter. -/
theorem latestS_map_eraseRemote (l : List Sample) :
    latestS (l.map eraseRemote) = eraseRemote (latestS l) := by
  have h := getLastD_map_eraseRemote l default
  rw [eraseRemote_default] at h
  exact h

/-- The baseline sample commutes with erasing the remote counter. -/
theorem baselineS_map_eraseRemote (l : List Sample) :
    baselineS (l.map eraseRemote) = eraseRemote (baselineS l) := by
  cases l with
  | nil => rfl
  | cons a t => rfl

/-- The local window delta ignores the remote counter. -/
theorem deltaLocal_map_eraseRemote (l : List Sample) :
    deltaLocal (l.map eraseRemote) = deltaLocal l := by
  unfold deltaLocal
  rw [latestS_map_eraseRemote, baselineS_map_eraseRemote]
  rfl

/-- The lost window delta ignores the remote counter. -/
theorem deltaLost_map_eraseRemote (l : List Sample) :
    deltaLost (l.map eraseRemote) = deltaLost l := by
  unfold deltaLost
  rw [latestS_map_eraseRemote, baselineS_map_eraseRemote]
  rfl

/-- The window duration ignores the remote counter. -/
theorem deltaSeconds_map_eraseRemote (l : List Sample) :
    deltaSeconds (l.map eraseRemote) = deltaSeconds l := by
  unfold deltaSeconds
  rw [latestS_map_eraseRemote, baselineS_map_eraseRemote]
  rfl

/-- On a ring with the remote counters erased, the remote window delta is the
reconstructed local-minus-lost value. -/
theorem deltaRemote_map_eraseRemote (l : List Sample) :
    deltaRemote (l.map eraseRemote) =
      deltaLocal (l.map eraseRemote) - deltaLost (l.map eraseRemote) := by
  unfold deltaRemote
  rw [latestS_map_eraseRemote]
  rfl

/-- A getLastD value of a nonempty list is a member. -/
theorem getLastD_mem (l : List Sample) : ∀ d : Sample, l ≠ [] → l.getLastD d ∈ l := by
  induction l with
  | nil =>
    intro d h
    exact absurd rfl h
  | cons a t ih =>
    intro d _
    rw [List.getLastD_cons]
    cases t with
    | nil => simp [List.getLastD]
    | cons b u => exact List.mem_cons_of_mem a (ih a (by simp))

/-- The latest sample of a nonempty ring is held in the ring. -/
theorem latestS_mem (l : List Sample) (h : l ≠ []) : latestS l ∈ l :=
  getLastD_mem l default h

/-- The baseline sample of a nonempty ring is held in the ring. -/
theorem baselineS_mem (l : List Sample) (h : l ≠ []) : baselineS l ∈ l := by
  cases l with
  | nil => exact absurd rfl h
  | cons a t => simp [baselineS]

/-- On a ring whose samples all carry a consistent remote counter, the remote
window delta equals the local delta minus the lost delta. -/
theorem deltaRemote_of_consistent (l : List Sample) (h : consistentRing l) :
    deltaRemote l = deltaLocal l - deltaLost l := by
  cases l with
  | nil => rfl
  | cons a t =>
    have hlat := h _ (latestS_mem (a :: t) (by simp))
    have hbase := h _ (baselineS_mem (a :: t) (by simp))
    unfold consistentS at hlat hbase
    unfold deltaRemote
    rw [hlat, hbase]
    show (latestS (a :: t)).packetsLocal - (latestS (a :: t)).packetsLost -
        ((baselineS (a :: t)).packetsLocal - (baselineS (a :: t)).packetsLost) =
      deltaLocal (a :: t) - deltaLost (a :: t)
    unfold deltaLocal deltaLost
    ring

/-- Erasing consistent remote counters does not change the window deltas. -/
theorem windowStats_map_eraseRemote (l : List Sample) (h : consistentRing l) :
    windowStats (l.map eraseRemote) = windowStats l := by
  unfold windowStats
  rw [deltaRemote_map_eraseRemote, deltaLocal_map_eraseRemote, deltaLost_map_eraseRemote,
    deltaSeconds_map_eraseRemote, deltaRemote_of_consistent l h, latestS_map_eraseRemote]
  rfl

/-- Erasing consistent remote counters does not change the classification. -/
theorem classifyRing_map_eraseRemote (l : List Sample) (stallCount : Nat)
    (h : consistentRing l) :
    classifyRing (l.map eraseRemote) stallCount = classifyRing l stallCount := by
  unfold classifyRing
  rw [windowStats_map_eraseRemote l h]

/-- The most recent local counter ignores the remote counter. -/
theorem lastLocal_map_eraseRemote (l : List Sample) :
    lastLocal (l.map eraseRemote) = lastLocal l := by
  induction l with
  | nil => rfl
  | cons a t ih =>
    cases t with
    | nil => rfl
    | cons b u =>
      unfold lastLocal at ih ⊢
      simp only [List.map_cons, List.getLast?_cons_cons] at ih ⊢
      simpa using ih

/-- Pushing a sample commutes with erasing the remote counters. -/
theorem pushSample_map_eraseRemote (ring : List Sample) (s : Sample) :
    pushSample (ring.map eraseRemote) (eraseRemote s) = (pushSample ring s).map eraseRemote := by
  unfold pushSample
  rw [List.length_map]
  by_cases h : ring.length < 6
  · rw [if_pos h, if_pos h, List.map_append]
    rfl
  · rw [if_neg h, if_neg h, List.map_append]
    congr 1
    cases ring with
    | nil => rfl
    | cons a t => rfl

/-- Pushing a consistent sample into a consistent ring keeps it consistent. -/
theorem consistentRing_pushSample (ring : List Sample) (s : Sample) (hr : consistentRing ring)
    (hs : consistentS s) : consistentRing (pushSample ring s) := by
  intro x hx
  unfold pushSample at hx
  by_cases h : ring.length < 6
  · rw [if_pos h] at hx
    rcases List.mem_append.mp hx with h1 | h1
    · exact hr x h1
    · rw [List.mem_singleton] at h1
      exact h1 ▸ hs
  · rw [if_neg h] at hx
    rcases List.mem_append.mp hx with h1 | h1
    · exact hr x (List.mem_of_mem_tail h1)
    · rw [List.mem_singleton] at h1
      exact h1 ▸ hs

/-- One driver tick keeps the ring consistent. -/
theorem stepChannel_ring_consistent (st : ChannelState) (s? : Option Sample)
    (hr : consistentRing st.ring) (hs : consistentOpt s?) :
    consistentRing (stepChannel st s?).1.ring := by
  cases s? with
  | none => exact hr
  | some s =>
    have hcs : consistentS s := hs s (by simp)
    simp only [stepChannel]
    by_cases h1 : lastLocal st.ring = some s.packetsLocal
    · rw [if_pos h1]
      by_cases h2 : 3 ≤ st.consecutiveStallCount + 1
      · rw [if_pos h2]
        exact consistentRing_pushSample _ _ hr hcs
      · rw [if_neg h2]
        exact consistentRing_pushSample _ _ hr hcs
    · rw [if_neg h1]
      exact consistentRing_pushSample _ _ hr hcs

/-- One driver tick on a consistent state with the remote counters erased
produces the erased version of the tick on the original state, with the same
emitted event. -/
theorem stepChannel_eraseRemote (st : ChannelState) (s? : Option Sample)
    (hr : consistentRing st.ring) (hs : consistentOpt s?) :
    stepChannel ⟨st.ring.map eraseRemote, st.currentLevel, st.consecutiveStallCount⟩
        (s?.map eraseRemote) =
      (⟨(stepChannel st s?).1.ring.map eraseRemote, (stepChannel st s?).1.currentLevel,
        (stepChannel st s?).1.consecutiveStallCount⟩, (stepChannel st s?).2) := by
  cases s? with
  | none => rfl
  | some s =>
    have hcs : consistentS s := hs s (by simp)
    have hpc : consistentRing (pushSample st.ring s) := consistentRing_pushSample _ _ hr hcs
    simp only [Option.map_some', stepChannel]
    by_cases h1 : lastLocal st.ring = some s.packetsLocal
    · have h1m : lastLocal (st.ring.map eraseRemote) = some (eraseRemote s).packetsLocal := by
        rw [lastLocal_map_eraseRemote, eraseRemote_packetsLocal]
        exact h1
      rw [if_pos h1m, if_pos h1]
      by_cases h2 : 3 ≤ st.consecutiveStallCount + 1
      · rw [if_pos h2, if_pos h2]
        unfold emitLevel
        rw [pushSample_map_eraseRemote]
      · rw [if_neg h2, if_neg h2]
        rw [pushSample_map_eraseRemote]
    · have h1m : ¬ lastLocal (st.ring.map eraseRemote) = some (eraseRemote s).packetsLocal := by
        rw [lastLocal_map_eraseRemote, eraseRemote_packetsLocal]
        exact h1
      rw [if_neg h1m, if_neg h1]
      unfold emitLevel
      rw [pushSample_map_eraseRemote, List.length_map,
        classifyRing_map_eraseRemote (pushSample st.ring s) 0 hpc]

/-- The first component of stepChannel_eraseRemote. -/
theorem stepChannel_eraseRemote_fst (st : ChannelState) (s? : Option Sample)
    (hr : consistentRing st.ring) (hs : consistentOpt s?) :
    (stepChannel ⟨st.ring.map eraseRemote, st.currentLevel, st.consecutiveStallCount⟩
        (s?.map eraseRemote)).1 =
      ⟨(stepChannel st s?).1.ring.map eraseRemote, (stepChannel st s?).1.currentLevel,
        (stepChannel st s?).1.consecutiveStallCount⟩ := by
  rw [stepChannel_eraseRemote st s? hr hs]

/-- The second component of stepChannel_eraseRemote. -/
theorem stepChannel_eraseRemote_snd (st : ChannelState) (s? : Option Sample)
    (hr : consistentRing st.ring) (hs : consistentOpt s?) :
    (stepChannel ⟨st.ring.map eraseRemote, st.currentLevel, st.consecutiveStallCount⟩
        (s?.map eraseRemote)).2 = (stepChannel st s?).2 := by
  rw [stepChannel_eraseRemote st s? hr hs]

/-- Running a channel over a tick sequence with all remote counters erased
produces the same events and the same per-tick levels as the original
sequence, provided every fed sample carries a consistent remote counter. -/
theorem runChannelFrom_eraseRemote (ticks : List (Option Sample)) :
    ∀ st : ChannelState, consistentRing st.ring → (∀ s? ∈ ticks, consistentOpt s?) →
      runChannelFrom ⟨st.ring.map eraseRemote, st.currentLevel, st.consecutiveStallCount⟩
          (ticks.map (Option.map eraseRemote)) =
        ⟨⟨(runChannelFrom st ticks).final.ring.map eraseRemote,
          (runChannelFrom st ticks).final.currentLevel,
          (runChannelFrom st ticks).final.consecutiveStallCount⟩,
         (runChannelFrom st ticks).events, (runChannelFrom st ticks).trace⟩ := by
  induction ticks with
  | nil =>
    intro st _ _
    rfl
  | cons s? rest ih =>
    intro st hr ht
    have hs : consistentOpt s? := ht s? (List.mem_cons_self _ _)
    have hr2 : consistentRing (stepChannel st s?).1.ring :=
      stepChannel_ring_consistent st s? hr hs
    have ih2 := ih (stepChannel st s?).1 hr2 (fun x hx => ht x (List.mem_cons_of_mem _ hx))
    simp only [List.map_cons, runChannelFrom]
    rw [stepChannel_eraseRemote_fst st s? hr hs, stepChannel_eraseRemote_snd st s? hr hs, ih2]

/-- Removing the remote packet counter does not affect whether a record is a
usable outbound-rtp record. -/
theorem isOutboundFor_drop (r : StatRecord) (k : MediaKind) :
    isOutboundFor (dropPacketsReceived r) k ↔ isOutboundFor r k := by
  unfold dropPacketsReceived
  split
  · exact Iff.rfl
  · exact Iff.rfl

/-- Removing the remote packet counter does not affect whether a record is a
usable remote-inbound-rtp record. -/
theorem isRemoteInboundFor_drop (r : StatRecord) (k : MediaKind) :
    isRemoteInboundFor (dropPacketsReceived r) k ↔ isRemoteInboundFor r k := by
  unfold dropPacketsReceived
  split
  · exact Iff.rfl
  · exact Iff.rfl

/-- Finding the outbound-rtp record commutes with removing the remote packet
counters. -/
theorem findOutbound_map_drop (l : List StatRecord) (k : MediaKind) :
    findOutbound (l.map dropPacketsReceived) k =
      (findOutbound l k).map dropPacketsReceived := by
  induction l with
  | nil => rfl
  | cons r rs ih =>
    simp only [List.map_cons, findOutbound]
    by_cases h : isOutboundFor r k
    · rw [if_pos ((isOutboundFor_drop r k).mpr h), if_pos h]
      rfl
    · rw [if_neg (fun hc => h ((isOutboundFor_drop r k).mp hc)), if_neg h]
      exact ih

/-- Finding the remote-inbound-rtp record commutes with removing the remote
packet counters. -/
theorem findRemoteInbound_map_drop (l : List StatRecord) (k : MediaKind) :
    findRemoteInbound (l.map dropPacketsReceived) k =
      (findRemoteInbound l k).map dropPacketsReceived := by
  induction l with
  | nil => rfl
  | cons r rs ih =>
    simp only [List.map_cons, findRemoteInbound]
    by_cases h : isRemoteInboundFor r k
    · rw [if_pos ((isRemoteInboundFor_drop r k).mpr h), if_pos h]
      rfl
    · rw [if_neg (fun hc => h ((isRemoteInboundFor_drop r k).mp hc)), if_neg h]
      exact ih

/-- The found outbound-rtp record is a usable outbound-rtp record. -/
theorem findOutbound_spec (l : List StatRecord) (k : MediaKind) :
    ∀ o : StatRecord, findOutbound l k = some o → isOutboundFor o k := by
  induction l with
  | nil =>
    intro o h
    cases h
  | cons r rs ih =>
    intro o h
    unfold findOutbound at h
    by_cases hc : isOutboundFor r k
    · rw [if_pos hc] at h
      cases h
      exact hc
    · rw [if_neg hc] at h
      exact ih o h

/-- The found remote-inbound-rtp record is a usable remote-inbound-rtp
record. -/
theorem findRemoteInbound_spec (l : List StatRecord) (k : MediaKind) :
    ∀ o : StatRecord, findRemoteInbound l k = some o → isRemoteInboundFor o k := by
  induction l with
  | nil =>
    intro o h
    cases h
  | cons r rs ih =>
    intro o h
    unfold findRemoteInbound at h
    by_cases hc : isRemoteInboundFor r k
    · rw [if_pos hc] at h
      cases h
      exact hc
    · rw [if_neg hc] at h
      exact ih o h

/-- Removing the remote packet counter leaves an outbound-rtp record
untouched. -/
theorem dropPacketsReceived_of_outbound (r : StatRecord) (h : r.rtype = .outboundRtp) :
    dropPacketsReceived r = r := by
  unfold dropPacketsReceived
  rw [if_neg (by rw [h]; intro hc; cases hc)]

/-- Removing the remote packet counter of a remote-inbound-rtp record sets
exactly the packetsReceived field to none. -/
theorem dropPacketsReceived_of_remote (r : StatRecord) (h : r.rtype = .remoteInboundRtp) :
    dropPacketsReceived r =
      ⟨r.rtype, r.kind, r.packetsSent, none, r.packetsLost, r.roundTripTime, r.timestamp⟩ := by
  unfold dropPacketsReceived
  rw [if_pos h]

/-- Extraction after removing the remote packet counters yields the extracted
sample with the remote counter erased. -/
theorem extractSender_map_drop (stats : List StatRecord) (k : MediaKind) :
    extractSender (stats.map dropPacketsReceived) k =
      (extractSender stats k).map eraseRemote := by
  unfold extractSender
  rw [findOutbound_map_drop, findRemoteInbound_map_drop]
  cases ho : findOutbound stats k with
  | none => rfl
  | some o =>
    cases hri : findRemoteInbound stats k with
    | none => rfl
    | some ri =>
      have hos := findOutbound_spec stats k o ho
      have hris := findRemoteInbound_spec stats k ri hri
      simp only [Option.map_some']
      rw [dropPacketsReceived_of_outbound o hos.1, dropPacketsReceived_of_remote ri hris.1]
      rfl

/-- C6: omitting the packetsReceived counter from every remote-inbound-rtp
record of a stats sequence yields exactly the same per-tick classifications
and the same quality-change events as the same sequence with packetsReceived
present and consistent, because the missing remote delta is reconstructed as
the local delta minus the lost delta rather than coerced to zero. -/
theorem c6_missing_remote_equivalence (ticksStats : List (List StatRecord)) (k : MediaKind)
    (hc : ∀ ts ∈ ticksStats, consistentExtract ts k) :
    (runChannel (ticksStats.map fun ts => extractSender (ts.map dropPacketsReceived) k)).trace =
      (runChannel (ticksStats.map fun ts => extractSender ts k)).trace ∧
    (runChannel (ticksStats.map fun ts => extractSender (ts.map dropPacketsReceived) k)).events =
      (runChannel (ticksStats.map fun ts => extractSender ts k)).events := by
  have hmap : (ticksStats.map fun ts => extractSender (ts.map dropPacketsReceived) k) =
      (ticksStats.map fun ts => extractSender ts k).map (Option.map eraseRemote) := by
    rw [List.map_map]
    exact List.map_congr_left (fun ts _ => extractSender_map_drop ts k)
  have hcons : ∀ s? ∈ ticksStats.map fun ts => extractSender ts k, consistentOpt s? := by
    intro s? hs
    obtain ⟨ts, hts, rfl⟩ := List.mem_map.mp hs
    exact hc ts hts
  have hrun := runChannelFrom_eraseRemote (ticksStats.map fun ts => extractSender ts k)
    initialChannel (by intro x hx; cases hx) hcons
  unfold runChannel
  rw [hmap]
  rw [show (initialChannel : ChannelState) =
    ⟨initialChannel.ring.map eraseRemote, initialChannel.currentLevel,
      initialChannel.consecutiveStallCount⟩ from rfl]
  rw [hrun]
  exact ⟨rfl, rfl⟩

unseal Rat.mul Rat.inv Rat.add Rat.sub in
/-- Witness for C6 at the Scenario A stat reports: the remote counters are
consistent, and omitting them yields the same per-tick classifications. -/
theorem c6_missing_remote_equivalence_witness :
    (∀ ts ∈ scenarioAReports, consistentExtract ts .aud) ∧
    (runChannel (scenarioAReports.map fun ts =>
        extractSender (ts.map dropPacketsReceived) .aud)).trace =
      (runChannel (scenarioAReports.map fun ts => extractSender ts .aud)).trace :=
  ⟨by decide, (c6_missing_remote_equivalence scenarioAReports .aud (by decide)).1⟩
